import Mathlib

/-!
# Verification of the 2026 goals dashboard

Shallow embedding of the core of the goal-tracking dashboard:
the goal data model and mutation engine (`src/frontend/src/pages/GoalsDashboard.tsx`),
the yearly-summary statistics and completion-transition detector
(`src/frontend/src/components/YearlySummaryTable.tsx`),
the checkbox-state storage loader
(`src/frontend/src/lib/yearlySummaryCheckboxStorage.ts`),
and the celebration capture flow
(`src/frontend/src/components/MonthlyCompletionCelebrationModal.tsx`),
together with theorems settling the specification's claims about them.
-/

namespace Goals2026

/-- Modelled from the spec: the file `lib/months.ts` is not part of the
sources at hand; per the spec, `Month` is "one of 12 fixed enumerated
values (calendar months)". -/
inductive Month where
  | january | february | march | april | may | june
  | july | august | september | october | november | december
deriving DecidableEq, Repr

/-- Modelled from the spec: the exported `MONTHS` constant of
`lib/months.ts`, the 12 calendar months in calendar order. -/
def MONTHS : List Month :=
  [.january, .february, .march, .april, .may, .june,
   .july, .august, .september, .october, .november, .december]

/-- Modelled from the spec: the string value backing each `Month`
(used in checkbox ids and storage keys). -/
def monthName : Month → String
  | .january => "January" | .february => "February" | .march => "March"
  | .april => "April" | .may => "May" | .june => "June"
  | .july => "July" | .august => "August" | .september => "September"
  | .october => "October" | .november => "November" | .december => "December"

/-- Inverse of `monthName`, used by the JSON decoder. -/
def monthOfName : String → Option Month
  | "January" => some .january | "February" => some .february | "March" => some .march
  | "April" => some .april | "May" => some .may | "June" => some .june
  | "July" => some .july | "August" => some .august | "September" => some .september
  | "October" => some .october | "November" => some .november | "December" => some .december
  | _ => none

/-- The `Goal` interface of `GoalsDashboard.tsx` / `YearlySummaryTable.tsx`:
`{ id, text, completed, month? }`. -/
structure Goal where
  id : String
  text : String
  completed : Bool
  month : Option Month
deriving DecidableEq, Repr

/-- The `GoalCard` interface: a category with display metadata and goals. -/
structure GoalCard where
  id : String
  title : String
  emoji : String
  color : String
  textColor : String
  goals : List Goal
deriving DecidableEq, Repr

/-- The composite checkbox key built at `YearlySummaryTable.tsx`
(template literal `cardId-goalId-month`). -/
def checkboxId (cardId goalId : String) (m : Month) : String :=
  cardId ++ "-" ++ goalId ++ "-" ++ monthName m

/-- The summary view's `checkedState` record: JS object lookup,
`undefined` (absent key) being falsy. -/
abbrev CheckedState := String → Bool

/-- The per-card month map built by the `card.goals.forEach` loop of
`YearlySummaryTable.tsx` lines 76-83: goals with `completed && month`
are appended to the entry for their month, tagged with the card id.
A JS `Map` used only through `get`/`set` is modelled as a function. -/
def buildMonthMap (card : GoalCard) : Month → Option (List (String × Goal)) :=
  card.goals.foldl
    (fun mm g =>
      if g.completed then
        match g.month with
        | some m =>
          let existing := (mm m).getD []
          fun m' => if m' = m then some (existing ++ [(card.id, g)]) else mm m'
        | none => mm
      else mm)
    (fun _ => none)

/-- The outer `categoryMonthGoals` map of `YearlySummaryTable.tsx`
lines 73-86: card id ↦ that card's month map (later cards overwrite
earlier ones with the same id, as JS `Map.set` does). -/
def categoryMonthGoals (cards : List GoalCard) :
    String → Option (Month → Option (List (String × Goal))) :=
  cards.foldl
    (fun acc card =>
      let monthMap := buildMonthMap card
      fun cid => if cid = card.id then some monthMap else acc cid)
    (fun _ => none)

/-- The record returned by `calculateMonthStatistics`. -/
structure MonthStats where
  completed : Int
  incomplete : Int
  progress : Rat
  isComplete : Bool
deriving DecidableEq, Repr

/-- JavaScript's `Math.round` on the (here exactly represented)
quotient: round half up, `⌊q + 1/2⌋`. -/
def jsRound (q : Rat) : Int :=
  ⌊q + 1 / 2⌋

/-- The function `calculateMonthStatistics` of `YearlySummaryTable.tsx` lines 96-123:
walk `cards`, look the card up in `categoryMonthGoals`, take that month's
goals, count them and the ones whose checkbox is set; `totalGoals === 0`
short-circuits to all-zero / not complete. -/
def calculateMonthStatistics (cards : List GoalCard) (checked : CheckedState)
    (m : Month) : MonthStats :=
  let counts := cards.foldl
    (fun (acc : Nat × Nat) card =>
      (match categoryMonthGoals cards card.id with
        | some monthMap => (monthMap m).getD []
        | none => []).foldl
        (fun (acc : Nat × Nat) (cg : String × Goal) =>
          (acc.1 + 1, if checked (checkboxId cg.1 cg.2.id m) then acc.2 + 1 else acc.2))
        acc)
    (0, 0)
  if counts.1 = 0 then
    ⟨0, 0, 0, false⟩
  else
    ⟨jsRound ((counts.2 : Rat) / (counts.1 : Rat) * 100),
     100 - jsRound ((counts.2 : Rat) / (counts.1 : Rat) * 100),
     (counts.2 : Rat) / (counts.1 : Rat),
     counts.2 == counts.1⟩

/-- The statistics computation as the spec's words describe it
(§4.3): collect the goals of all categories with
`goal.completed == true && goal.month == month`, count the ones whose
checkbox entry is true, and derive the percentages from those counts.
This is the spec-side definition that claim C3 compares against the
code-side `calculateMonthStatistics`. -/
def computeMonthStatsSpec (cards : List GoalCard) (checked : CheckedState)
    (m : Month) : MonthStats :=
  let eligible := (cards.map (fun c =>
    (c.goals.filter (fun g => g.completed && g.month == some m)).map
      (fun g => (c.id, g)))).flatten
  let total := eligible.length
  let chk := (eligible.filter (fun p => checked (checkboxId p.1 p.2.id m))).length
  if total = 0 then
    ⟨0, 0, 0, false⟩
  else
    ⟨jsRound (100 * (chk : Rat) / (total : Rat)),
     100 - jsRound (100 * (chk : Rat) / (total : Rat)),
     (chk : Rat) / (total : Rat),
     chk == total⟩

/-- One pass of the completion-transition `useEffect` of
`YearlySummaryTable.tsx` lines 126-146: for each month of `MONTHS`, in
order, compare the retained `previousCompletionRef` entry (missing keys
read as `false` via `|| false`) with the freshly computed `isComplete`;
a `false → true` edge appends a "month completed" event (the celebration
modal opening for that month); the fresh values are collected into
`currentCompletion`, which replaces the ref wholesale after the loop.
Returns (events fired in order, new retained map). -/
def detectorPass (cards : List GoalCard) (checked : CheckedState)
    (prev : Month → Option Bool) : List Month × (Month → Option Bool) :=
  MONTHS.foldl
    (fun (acc : List Month × (Month → Option Bool)) m =>
      let stats := calculateMonthStatistics cards checked m
      let wasComplete := (prev m).getD false
      let isNowComplete := stats.isComplete
      let fired := if !wasComplete && isNowComplete then acc.1 ++ [m] else acc.1
      (fired, fun m' => if m' = m then some isNowComplete else acc.2 m'))
    ([], fun _ => none)

/-- Iterated detector passes: the effect re-runs on every `checkedState`
change; fold the sequence of checkbox states, threading the retained
ref, and record each pass's fired events.  The ref starts as the empty
record `{}` (`useRef({})`, all months absent). -/
def runDetector (cards : List GoalCard) (states : List CheckedState) :
    List (List Month) :=
  (states.foldl
    (fun (acc : List (List Month) × (Month → Option Bool)) st =>
      let pass := detectorPass cards st acc.2
      (acc.1 ++ [pass.1], pass.2))
    ([], fun _ => none)).1

/-! ## Goal model and mutation engine (`GoalsDashboard.tsx`) -/

/-- The goal lookup performed at the top of `toggleGoal`
(`cards.find` by card id, then `card?.goals.find` by goal id). -/
def findGoal (cards : List GoalCard) (cardId goalId : String) : Option Goal :=
  (cards.find? (fun c => c.id == cardId)).bind
    (fun c => c.goals.find? (fun g => g.id == goalId))

/-- The function `toggleGoal` of `GoalsDashboard.tsx` lines 172-219 (the `setCards`
state updates; the month-selection modal bookkeeping is UI state outside
the collection).  An unknown goal is a no-op; unchecking clears
`completed` and `month`; checking flips the flag only. -/
def toggleGoal (cards : List GoalCard) (cardId goalId : String) : List GoalCard :=
  match findGoal cards cardId goalId with
  | none => cards
  | some goal =>
    let isBeingChecked := !goal.completed
    if !isBeingChecked then
      cards.map (fun card =>
        if card.id == cardId then
          { card with goals := card.goals.map (fun g =>
              if g.id == goalId then { g with completed := false, month := none } else g) }
        else card)
    else
      cards.map (fun card =>
        if card.id == cardId then
          { card with goals := card.goals.map (fun g =>
              if g.id == goalId then { g with completed := !g.completed } else g) }
        else card)

/-- The `setCards` update of `saveEdit` (`GoalsDashboard.tsx` lines
298-319): with no goal in edit mode nothing happens; otherwise the
trimmed text replaces the target goal's text unless it is empty. -/
def saveEditCards (cards : List GoalCard) (editingGoal : Option (String × String))
    (editText : String) : List GoalCard :=
  match editingGoal with
  | none => cards
  | some (cardId, goalId) =>
    let trimmedText := editText.trim
    if trimmedText ≠ "" then
      cards.map (fun card =>
        if card.id == cardId then
          { card with goals := card.goals.map (fun g =>
              if g.id == goalId then { g with text := trimmedText } else g) }
        else card)
    else cards

/-- The function `deleteGoal` of `GoalsDashboard.tsx` lines 336-347. -/
def deleteGoal (cards : List GoalCard) (cardId goalId : String) : List GoalCard :=
  cards.map (fun card =>
    if card.id == cardId then
      { card with goals := card.goals.filter (fun g => !(g.id == goalId)) }
    else card)

/-- The function `addGoal` of `GoalsDashboard.tsx` lines 349-368; `Date.now()` is
passed in as the `now` parameter. -/
def addGoal (cards : List GoalCard) (cardId : String) (now : Nat) : List GoalCard :=
  let newGoalId := cardId ++ "-" ++ toString now
  cards.map (fun card =>
    if card.id == cardId then
      { card with goals :=
          card.goals ++ [{ id := newGoalId, text := "New goal", completed := false,
                           month := none }] }
    else card)

/-- The `initialCards` seed of `GoalsDashboard.tsx` lines 27-125. -/
def initialCards : List GoalCard :=
  [{ id := "career", title := "Career-Professional", emoji := "💼",
     color := "oklch(0.95 0.12 95)", textColor := "oklch(0.3 0.08 95)",
     goals :=
      [{ id := "c1", text := "Python from 0 to hero", completed := false, month := none },
       { id := "c2", text := "Udemy Course AI", completed := false, month := none },
       { id := "c3", text := "Python bootcamp", completed := false, month := none },
       { id := "c4", text := "Deep learning Platzi AA", completed := false, month := none },
       { id := "c5", text := "Machine learning Platzi", completed := false, month := none }] },
   { id := "personal", title := "Personal Development", emoji := "🚀",
     color := "oklch(0.92 0.15 55)", textColor := "oklch(0.35 0.12 55)",
     goals :=
      [{ id := "p1", text := "Leer 5 páginas de un libro por día", completed := false, month := none },
       { id := "p2", text := "Piano : 1 complete song", completed := false, month := none },
       { id := "p3", text := "Aprender Chino", completed := false, month := none },
       { id := "p4", text := "Aprender Cubo Rubik", completed := false, month := none },
       { id := "p5", text := "Cursos de inteligencia emocional", completed := false, month := none }] },
   { id := "laboral", title := "Laboral - Job", emoji := "💼",
     color := "oklch(0.90 0.15 25)", textColor := "oklch(0.35 0.12 25)",
     goals :=
      [{ id := "l1", text := "Test Manager Certification- ISTQB", completed := false, month := none },
       { id := "l2", text := "Cibersecurity", completed := false, month := none },
       { id := "l3", text := "Giving response for Linkedin messages", completed := false, month := none },
       { id := "l4", text := "Get Remote job in USA - Canada - On November / december", completed := false, month := none },
       { id := "l5", text := "Update mi CV", completed := false, month := none }] },
   { id := "family", title := "Family and Sentimental", emoji := "💕",
     color := "oklch(0.92 0.15 350)", textColor := "oklch(0.35 0.12 350)",
     goals :=
      [{ id := "f1", text := "Meet new people", completed := false, month := none },
       { id := "f2", text := "Visit parents more often", completed := false, month := none },
       { id := "f3", text := "Spend Quality time with Flore", completed := false, month := none },
       { id := "f4", text := "Know new Montreal places without Spend too much money", completed := false, month := none },
       { id := "f5", text := "Bartender", completed := false, month := none }] },
   { id := "financial", title := "Financial", emoji := "💰",
     color := "oklch(0.90 0.15 285)", textColor := "oklch(0.35 0.12 285)",
     goals :=
      [{ id := "fi1", text := "Ahorrar para objetivos grandes (propiedad, viajes)", completed := false, month := none },
       { id := "fi2", text := "Get Infinite card Canada with benefits for traveling around the world", completed := false, month := none },
       { id := "fi3", text := "Expand my line of credit Canada", completed := false, month := none },
       { id := "fi4", text := "Use wisely credit card Canada", completed := false, month := none },
       { id := "fi5", text := "Olivo -importaciones - Peru - Negocio", completed := false, month := none }] },
   { id := "health", title := "Health", emoji := "🏃",
     color := "oklch(0.92 0.12 220)", textColor := "oklch(0.30 0.10 220)",
     goals :=
      [{ id := "h1", text := "Learn how to use insurance health", completed := false, month := none },
       { id := "h2", text := "Tiempo sólo para mi- una vez a la semana", completed := false, month := none },
       { id := "h3", text := "Drink water 2 L: 2 vasos antes de hacer ejercicio, 2 vasos antes del desayuno, 2-vasos antes del almuerzo y 2 vasos 2 horas antes de dormir", completed := true, month := none },
       { id := "h4", text := "skincare - Mañana y noche", completed := false, month := none },
       { id := "h5", text := "Increase level of iron", completed := false, month := none }] },
   { id := "academic", title := "Academic - University", emoji := "🎓",
     color := "oklch(0.93 0.12 145)", textColor := "oklch(0.30 0.10 145)",
     goals :=
      [{ id := "a1", text := "Pass with A+ each course", completed := false, month := none },
       { id := "a2", text := "Get Scholarship for GPA more than 4.3", completed := false, month := none },
       { id := "a3", text := "Get GPA 5", completed := false, month := none },
       { id := "a4", text := "Estudiar para certificaciones técnicas", completed := false, month := none }] }]

/-! ## Persistence (`localStorage` + `JSON.parse`/`JSON.stringify`) -/

/-- JSON values, the results `JSON.parse` can produce.  Numbers do not
occur in this program's stored data, so integers suffice. -/
inductive Json where
  | null
  | bool (b : Bool)
  | num (n : Int)
  | str (s : String)
  | arr (xs : List Json)
  | obj (fields : List (String × Json))

/-- The `JSON.stringify` image of one goal: fields in property-insertion
order; an `undefined` `month` is omitted, as `JSON.stringify` drops
`undefined` properties. -/
def encodeGoal (g : Goal) : Json :=
  match g.month with
  | none => .obj [("id", .str g.id), ("text", .str g.text), ("completed", .bool g.completed)]
  | some m => .obj [("id", .str g.id), ("text", .str g.text), ("completed", .bool g.completed),
                    ("month", .str (monthName m))]

/-- The `JSON.stringify` image of one category card. -/
def encodeCard (c : GoalCard) : Json :=
  .obj [("id", .str c.id), ("title", .str c.title), ("emoji", .str c.emoji),
        ("color", .str c.color), ("textColor", .str c.textColor),
        ("goals", .arr (c.goals.map encodeGoal))]

/-- The `JSON.stringify` image of the whole collection (the value written
under the `goals-dashboard-cards` key). -/
def encodeCards (cards : List GoalCard) : Json :=
  .arr (cards.map encodeCard)

/-- Reading a goal back out of its serialized form. -/
def decodeGoal : Json → Option Goal
  | .obj [("id", .str id), ("text", .str text), ("completed", .bool c)] =>
    some { id := id, text := text, completed := c, month := none }
  | .obj [("id", .str id), ("text", .str text), ("completed", .bool c), ("month", .str ms)] =>
    (monthOfName ms).map (fun m => { id := id, text := text, completed := c, month := some m })
  | _ => none

/-- Reading a list of goals back. -/
def decodeGoalList : List Json → Option (List Goal)
  | [] => some []
  | j :: rest => do
    let g ← decodeGoal j
    let gs ← decodeGoalList rest
    pure (g :: gs)

/-- Reading a category card back out of its serialized form. -/
def decodeCard : Json → Option GoalCard
  | .obj [("id", .str id), ("title", .str title), ("emoji", .str emoji),
          ("color", .str color), ("textColor", .str textColor), ("goals", .arr gs)] =>
    (decodeGoalList gs).map (fun goals =>
      { id := id, title := title, emoji := emoji, color := color,
        textColor := textColor, goals := goals })
  | _ => none

/-- Reading a list of cards back. -/
def decodeCardList : List Json → Option (List GoalCard)
  | [] => some []
  | j :: rest => do
    let c ← decodeCard j
    let cs ← decodeCardList rest
    pure (c :: cs)

/-- Reading the whole collection back out of the stored JSON value. -/
def decodeCards : Json → Option (List GoalCard)
  | .arr xs => decodeCardList xs
  | _ => none

/-- The raw content of a `localStorage` key, abstracted to its
`JSON.parse` outcome: `none` models a missing (or empty, hence falsy)
stored string, `some (.error ())` a string `JSON.parse` throws on, and
`some (.ok j)` a string that parses to the JSON value `j`. -/
abbrev StoredValue := Option (Except Unit Json)

/-- The `useState` initializer of `GoalsDashboard.tsx` lines 130-141:
missing key or parse failure falls back to `initialCards`; a
successfully parsed value is returned as-is (there is no shape
validation in the source). -/
def loadGoals (stored : StoredValue) : Json :=
  match stored with
  | some (.ok j) => j
  | some (.error _) => encodeCards initialCards
  | none => encodeCards initialCards

/-- The persistence `useEffect` of `GoalsDashboard.tsx` lines 160-162:
`JSON.stringify` the collection value and write it; a later read of the
key parses back to the same JSON value. -/
def saveGoals (cards : Json) : StoredValue :=
  some (.ok cards)

/-- The function `loadCheckboxState` of `yearlySummaryCheckboxStorage.ts` lines
16-43.  The stored string is abstracted as in `loadGoals`; the result is
the parsed object's entry list (`{}` becoming `[]`).  Rejects, by
returning the empty object: a missing key, a parse failure, any parsed
value that is not a JS object (`typeof parsed !== 'object'`), `null`, an
array, and an object with a non-boolean value. -/
def loadCheckboxState (stored : StoredValue) : List (String × Json) :=
  match stored with
  | none => []
  | some (.error _) => []
  | some (.ok parsed) =>
    match parsed with
    | .obj fields =>
      if fields.all (fun p => match p.2 with | .bool _ => true | _ => false) then
        fields
      else []
    | _ => []

/-! ## Celebration capture flow (`MonthlyCompletionCelebrationModal.tsx`) -/

/-- The constant `CAPTURE_TIMEOUT_MS` of `MonthlyCompletionCelebrationModal.tsx`
line 27: hard cap on capture attempts, in milliseconds. -/
def CAPTURE_TIMEOUT_MS : Nat := 10000

/-- The retry interval of the capture loop (`setInterval(..., 500)` at
line 439), in milliseconds. -/
def RETRY_INTERVAL_MS : Nat := 500

/-- The state and refs of `MonthlyCompletionCelebrationModal` that the
capture flow reads and writes.  React state and its shadowing ref
(`open`/`openRef`, `isCameraMode`/`isCameraModeRef`) are kept in sync by
effects and modelled as one field each.  Live timers are modelled by
their `...Active` flags (ref holds a handle vs. `null`). -/
structure ModalState where
  flowRunId : Nat
  activeFlowId : Option Nat
  openFlag : Bool
  isCameraMode : Bool
  isCapturing : Bool
  isCapturingPhoto : Bool
  isStartingCamera : Bool
  isProcessing : Bool
  isSelfieCapture : Bool
  countdown : Option Nat
  countdownTimerActive : Bool
  retryIntervalActive : Bool
  captureTimeoutActive : Bool
  cameraActive : Bool
  selectedImage : Option String
  cameraError : Option String
deriving DecidableEq, Repr

/-- Result of one `capturePhoto()` round inside `attemptCapture`:
no video element, zero video dimensions, a `null` return (transient),
a thrown error (fatal), or a captured file that then processes to the
final image URL. -/
inductive CaptureOutcome where
  | noVideo
  | zeroDims
  | transientNull
  | fatal (msg : String)
  | success (img : String)
deriving DecidableEq, Repr

/-- The function `teardownCaptureFlow` (lines 107-144): clear all three timers, reset
the capture flags and transient UI state, stop the camera, and only then
deactivate the flow. -/
def teardownCaptureFlow (s : ModalState) : ModalState :=
  { s with countdownTimerActive := false, retryIntervalActive := false,
           captureTimeoutActive := false, isCapturing := false,
           isCapturingPhoto := false, countdown := none,
           isStartingCamera := false, isProcessing := false,
           cameraActive := false, activeFlowId := none }

/-- The error message set by the capture-timeout callback (line 274). -/
def captureTimeoutMsg : String :=
  "Photo capture timed out. Please try again or use the \"Upload Photo\" button below."

/-- The error message set on a fatal capture error (line 409). -/
def fatalCaptureMsg (msg : String) : String :=
  "Failed to capture photo: " ++ msg ++
    ". Please try again or use the \"Upload Photo\" button below."

/-- The closure `attemptCapture` (lines 278-413), issued under flow id `fid`:
guarded first by the active-flow check, then by the `isCameraModeRef` /
`openRef` check; a missing video element, zero dimensions, or a `null`
capture return `false` with no state change (transient, will retry); a
successful capture clears both timers, stops the camera, processes the
photo into `img`, shows the preview and deactivates the flow; a thrown
error clears the timers, tears the flow down and reports a fatal error.
Returns the new state and the `success` boolean. -/
def attemptCapture (fid : Nat) (o : CaptureOutcome) (s : ModalState) :
    ModalState × Bool :=
  if s.activeFlowId ≠ some fid then (s, false)
  else if !s.isCameraMode || !s.openFlag then (s, false)
  else match o with
    | .noVideo => (s, false)
    | .zeroDims => (s, false)
    | .transientNull => (s, false)
    | .success img =>
      let s := { s with retryIntervalActive := false, captureTimeoutActive := false,
                        isCapturingPhoto := false, isCapturing := false,
                        cameraActive := false }
      ({ s with selectedImage := some img, isCameraMode := false,
                isSelfieCapture := true, cameraError := none,
                isProcessing := false, activeFlowId := none }, true)
    | .fatal msg =>
      let s := { s with retryIntervalActive := false, captureTimeoutActive := false }
      let s := teardownCaptureFlow s
      ({ s with isCameraMode := false, cameraError := some (fatalCaptureMsg msg) }, false)

/-- The capture-timeout callback scheduled by `handleCapture` at lines
248-275, issued under flow id `fid`: if the flow was superseded, or the
modal closed / camera mode exited, return untouched; otherwise clear the
retry interval, tear the flow down, and report the timeout error. -/
def captureTimeoutCont (fid : Nat) (s : ModalState) : ModalState :=
  if s.activeFlowId ≠ some fid then s
  else if !s.openFlag || !s.isCameraMode then s
  else
    let s := { s with retryIntervalActive := false }
    let s := teardownCaptureFlow s
    { s with isCameraMode := false, cameraError := some captureTimeoutMsg }

/-- One tick of the retry interval (lines 421-439), issued under flow id
`fid`: a stale tick clears its interval and returns; an active tick
re-attempts the capture and clears the interval on success. -/
def retryTick (fid : Nat) (o : CaptureOutcome) (s : ModalState) : ModalState :=
  if s.activeFlowId ≠ some fid then
    { s with retryIntervalActive := false }
  else
    let r := attemptCapture fid o s
    if r.2 then { r.1 with retryIntervalActive := false } else r.1

/-- The synchronous start of `handleCapture` (lines 221-248 and
415-447): bail out if a capture is already in progress; clear the
pending countdown timer; allocate the next flow id (`++flowRunIdRef`)
and activate it; arm the capture timeout; run the first attempt; if it
failed and the flow is still active, start the retry interval.  Returns
the new state and the allocated flow id (`none` when skipped). -/
def handleCaptureStart (o : CaptureOutcome) (s : ModalState) :
    ModalState × Option Nat :=
  if s.isCapturing then (s, none)
  else
    let s := { s with countdownTimerActive := false }
    let fid := s.flowRunId + 1
    let s := { s with flowRunId := fid, activeFlowId := some fid,
                      isCapturing := true, isCapturingPhoto := true,
                      captureTimeoutActive := true }
    let r := attemptCapture fid o s
    if !r.2 && r.1.activeFlowId == some fid then
      ({ r.1 with retryIntervalActive := true }, some fid)
    else if r.2 then
      ({ r.1 with captureTimeoutActive := false }, some fid)
    else (r.1, some fid)

/-- The capture-flow fields proper (phase flags, data, ids), i.e. the
modal's state without the three timer-handle refs. -/
def flowProj (s : ModalState) :=
  (s.flowRunId, s.activeFlowId, s.openFlag, s.isCameraMode, s.isCapturing,
   s.isCapturingPhoto, s.isStartingCamera, s.isProcessing, s.isSelfieCapture,
   s.countdown, s.cameraActive, s.selectedImage, s.cameraError)

/-- The per-card eligible-goal lists as `calculateMonthStatistics`'s
outer loop sees them: each card contributes the entry of the
`categoryMonthGoals` month map under its own id. -/
def eligibleList (cards : List GoalCard) (m : Month) : List (String × Goal) :=
  (cards.map (fun card =>
    match categoryMonthGoals cards card.id with
    | some monthMap => (monthMap m).getD []
    | none => [])).flatten

/-- A one-card, one-goal collection whose single goal is completed and
assigned to January; with it, a constant checkbox state `b` makes
January's `isComplete` equal `b`.  Used to drive the transition detector
through a prescribed `isComplete` sequence. -/
def demoCards : List GoalCard :=
  [{ id := "card1", title := "Demo", emoji := "⭐", color := "white",
     textColor := "black",
     goals := [{ id := "g1", text := "demo goal", completed := true,
                 month := some .january }] }]

/-- Two categories sharing the id `"x"`: the first holds a completed
January goal, the second none.  The `categoryMonthGoals` map keeps only
the last month map per id, so the statistics loop sees no goals at all
for this collection. -/
def dupIdCards : List GoalCard :=
  [{ id := "x", title := "first", emoji := "", color := "", textColor := "",
     goals := [{ id := "g1", text := "goal", completed := true,
                 month := some .january }] },
   { id := "x", title := "second", emoji := "", color := "", textColor := "",
     goals := [] }]

/-- A modal state belonging to an already-superseded flow (flow 1 was
replaced, flow 2 is active): used to witness the stale-continuation
guards. -/
def staleFlowState : ModalState :=
  { flowRunId := 2, activeFlowId := some 2, openFlag := true,
    isCameraMode := true, isCapturing := true, isCapturingPhoto := true,
    isStartingCamera := false, isProcessing := false, isSelfieCapture := false,
    countdown := none, countdownTimerActive := false,
    retryIntervalActive := true, captureTimeoutActive := true,
    cameraActive := true, selectedImage := none, cameraError := none }

/-- A quiescent modal state: modal open, camera mode on after the
countdown, no flow active yet.  The state from which `handleCapture`
starts the capture flow. -/
def readyModalState : ModalState :=
  { flowRunId := 0, activeFlowId := none, openFlag := true,
    isCameraMode := true, isCapturing := false, isCapturingPhoto := false,
    isStartingCamera := false, isProcessing := false, isSelfieCapture := false,
    countdown := none, countdownTimerActive := false,
    retryIntervalActive := false, captureTimeoutActive := false,
    cameraActive := true, selectedImage := none, cameraError := none }

/-- Frame predicate at the card level: the mutation preserves the list
length, every card's id, title and display metadata, and leaves every
card whose id differs from the addressed one entirely untouched. -/
abbrev CardFrame (cards result : List GoalCard) (cardId : String) : Prop :=
  result.length = cards.length ∧
  ∀ (i : Nat) (hi : i < cards.length) (hi' : i < result.length),
    (result.get ⟨i, hi'⟩).id = (cards.get ⟨i, hi⟩).id ∧
    (result.get ⟨i, hi'⟩).title = (cards.get ⟨i, hi⟩).title ∧
    (result.get ⟨i, hi'⟩).emoji = (cards.get ⟨i, hi⟩).emoji ∧
    (result.get ⟨i, hi'⟩).color = (cards.get ⟨i, hi⟩).color ∧
    (result.get ⟨i, hi'⟩).textColor = (cards.get ⟨i, hi⟩).textColor ∧
    ((cards.get ⟨i, hi⟩).id ≠ cardId → result.get ⟨i, hi'⟩ = cards.get ⟨i, hi⟩)

/-- Frame predicate at the goal-list level: same length, and every goal
whose id differs from the addressed one is unchanged in place (so its
id, text, completed flag and month are all preserved). -/
abbrev GoalsFrame (gs gs' : List Goal) (goalId : String) : Prop :=
  gs'.length = gs.length ∧
  ∀ (j : Nat) (hj : j < gs.length) (hj' : j < gs'.length),
    (gs.get ⟨j, hj⟩).id ≠ goalId → gs'.get ⟨j, hj'⟩ = gs.get ⟨j, hj⟩

/-- The modal state right after `handleCapture` has armed a fresh flow
from state `s` and the first (transiently failing) attempt has started
the retry interval: countdown timer cleared, new flow id allocated and
active, capture flags set, capture timeout armed, retry interval armed. -/
def armedState (s : ModalState) : ModalState :=
  { s with
      countdownTimerActive := false
      flowRunId := s.flowRunId + 1
      activeFlowId := some (s.flowRunId + 1)
      isCapturing := true
      isCapturingPhoto := true
      captureTimeoutActive := true
      retryIntervalActive := true }

/-- The modal state after the capture timeout tears the armed flow
down: all timers cleared, flow deactivated, camera stopped and camera
mode exited, timeout error reported. -/
def timedOutState (s : ModalState) : ModalState :=
  { s with
      countdownTimerActive := false
      flowRunId := s.flowRunId + 1
      activeFlowId := none
      isCapturing := false
      isCapturingPhoto := false
      captureTimeoutActive := false
      retryIntervalActive := false
      countdown := none
      isStartingCamera := false
      isProcessing := false
      cameraActive := false
      isCameraMode := false
      cameraError := some captureTimeoutMsg }

/-! # Theorems -/

theorem monthOfName_monthName (m : Month) : monthOfName (monthName m) = some m := by
  cases m <;> rfl

theorem mem_MONTHS (m : Month) : m ∈ MONTHS := by
  cases m <;> decide

/-! ## Round-trip lemmas for the goal-collection JSON encoding -/

theorem decodeGoal_encodeGoal (g : Goal) : decodeGoal (encodeGoal g) = some g := by
  cases g with
  | mk id text completed month =>
    cases month with
    | none => rfl
    | some m => simp [encodeGoal, decodeGoal, monthOfName_monthName]

theorem decodeGoalList_map_encodeGoal (gs : List Goal) :
    decodeGoalList (gs.map encodeGoal) = some gs := by
  induction gs with
  | nil => rfl
  | cons g rest ih =>
    simp [decodeGoalList, decodeGoal_encodeGoal, ih]

theorem decodeCard_encodeCard (c : GoalCard) : decodeCard (encodeCard c) = some c := by
  cases c with
  | mk id title emoji color textColor goals =>
    simp [encodeCard, decodeCard, decodeGoalList_map_encodeGoal]

theorem decodeCardList_map_encodeCard (cs : List GoalCard) :
    decodeCardList (cs.map encodeCard) = some cs := by
  induction cs with
  | nil => rfl
  | cons c rest ih =>
    simp [decodeCardList, decodeCard_encodeCard, ih]

theorem decodeCards_encodeCards (cards : List GoalCard) :
    decodeCards (encodeCards cards) = some cards := by
  simp [encodeCards, decodeCards, decodeCardList_map_encodeCard]

/-! ## Claim C5: `loadGoals` fail-open behavior -/

/-- C5 counterexample: the claim states that a parsed value whose shape
does not match the goal-collection schema makes `loadGoals` return the
seed defaults.  The stored string `"42"` parses to the JSON number 42 —
not a goal collection — yet `loadGoals` returns it unchanged instead of
the seed default collection: the initializer has no shape validation. -/
theorem loadGoals_returns_invalid_shape :
    loadGoals (some (Except.ok (Json.num 42))) = Json.num 42 ∧
    decodeCards (Json.num 42) = none ∧
    Json.num 42 ≠ encodeCards initialCards := by
  refine ⟨rfl, rfl, fun h => ?_⟩
  rw [show encodeCards initialCards = Json.arr (initialCards.map encodeCard) from rfl] at h
  exact Json.noConfusion h

/-- C5 amended: `loadGoals` never throws and fails open — a missing key
or a parse failure yields the seed default collection — but it performs
no shape validation: every successfully parsed JSON value is returned
unchanged, whatever its shape. -/
theorem loadGoals_fails_open :
    loadGoals none = encodeCards initialCards ∧
    (∀ e : Unit, loadGoals (some (Except.error e)) = encodeCards initialCards) ∧
    (∀ j : Json, loadGoals (some (Except.ok j)) = j) :=
  ⟨rfl, fun _ => rfl, fun _ => rfl⟩

/-! ## Claim C8: save-then-load round-trip -/

/-- C8: `saveGoals (loadGoals ·)` round-trips: re-reading the serialized
form of whatever `loadGoals` returned yields the same stored JSON value,
that JSON value determines the collection uniquely
(`decodeCards ∘ encodeCards = some`), and the default collection
(missing key) round-trips to `initialCards` itself. -/
theorem saveGoals_loadGoals_roundtrip :
    (∀ stored : StoredValue,
      loadGoals (saveGoals (loadGoals stored)) = loadGoals stored) ∧
    (∀ cards : List GoalCard, decodeCards (encodeCards cards) = some cards) ∧
    decodeCards (loadGoals none) = some initialCards :=
  ⟨fun _ => rfl, decodeCards_encodeCards, decodeCards_encodeCards initialCards⟩

/-! ## Claim C10: `loadCheckboxState` validation -/

/-- C10: `loadCheckboxState` is total and its result is always an
object all of whose values are booleans: a missing key, a parse
failure, `null`, an array, any non-object, or an object with a
non-boolean value all collapse to the empty mapping, and a valid
all-boolean object is returned unchanged. -/
theorem loadCheckboxState_safe :
    (∀ stored : StoredValue, ∀ p ∈ loadCheckboxState stored, ∃ b, p.2 = Json.bool b) ∧
    loadCheckboxState none = [] ∧
    (∀ e : Unit, loadCheckboxState (some (Except.error e)) = []) ∧
    (∀ fields,
      (fields.all fun p => match p.2 with | .bool _ => true | _ => false) = true →
      loadCheckboxState (some (Except.ok (Json.obj fields))) = fields) ∧
    (∀ fields,
      (fields.all fun p => match p.2 with | .bool _ => true | _ => false) = false →
      loadCheckboxState (some (Except.ok (Json.obj fields))) = []) ∧
    loadCheckboxState (some (Except.ok Json.null)) = [] ∧
    (∀ xs, loadCheckboxState (some (Except.ok (Json.arr xs))) = []) ∧
    (∀ n, loadCheckboxState (some (Except.ok (Json.num n))) = []) ∧
    (∀ s, loadCheckboxState (some (Except.ok (Json.str s))) = []) ∧
    (∀ b, loadCheckboxState (some (Except.ok (Json.bool b))) = []) := by
  refine ⟨?_, rfl, fun _ => rfl, fun fields h => ?_, fun fields h => ?_,
          rfl, fun _ => rfl, fun _ => rfl, fun _ => rfl, fun _ => rfl⟩
  · intro stored p hp
    match stored with
    | none => simp [loadCheckboxState] at hp
    | some (.error _) => simp [loadCheckboxState] at hp
    | some (.ok parsed) =>
      match parsed with
      | .null | .bool _ | .num _ | .str _ | .arr _ =>
        simp [loadCheckboxState] at hp
      | .obj fields =>
        simp only [loadCheckboxState] at hp
        split at hp
        · next hall =>
          have := List.all_eq_true.mp hall p hp
          match hb : p.2 with
          | .bool b => exact ⟨b, rfl⟩
          | .null | .num _ | .str _ | .arr _ | .obj _ => simp [hb] at this
        · simp at hp
  · simp [loadCheckboxState, h]
  · simp [loadCheckboxState, h]

/-- Witness for C10 at concrete inputs: a valid all-boolean object is
returned unchanged; an object with a numeric value is rejected. -/
theorem loadCheckboxState_safe_witness :
    loadCheckboxState (some (Except.ok (Json.obj [("career-c1-January", Json.bool true)]))) =
      [("career-c1-January", Json.bool true)] ∧
    loadCheckboxState (some (Except.ok (Json.obj [("career-c1-January", Json.num 1)]))) = [] ∧
    loadCheckboxState (some (Except.ok (Json.num 3))) = [] :=
  ⟨loadCheckboxState_safe.2.2.2.1 [("career-c1-January", Json.bool true)] rfl,
   loadCheckboxState_safe.2.2.2.2.1 [("career-c1-January", Json.num 1)] rfl,
   loadCheckboxState_safe.2.2.2.2.2.2.2.1 3⟩

/-! ## Counting lemmas for the statistics engine -/

theorem stats_inner_foldl (checked : CheckedState) (m : Month)
    (goals : List (String × Goal)) (acc : Nat × Nat) :
    goals.foldl
      (fun (acc : Nat × Nat) (cg : String × Goal) =>
        (acc.1 + 1, if checked (checkboxId cg.1 cg.2.id m) then acc.2 + 1 else acc.2))
      acc =
    (acc.1 + goals.length,
     acc.2 + (goals.filter
        (fun cg => checked (checkboxId cg.1 cg.2.id m))).length) := by
  induction goals generalizing acc with
  | nil => simp
  | cons g rest ih =>
    simp only [List.foldl_cons, List.filter_cons]
    rw [ih]
    by_cases h : checked (checkboxId g.1 g.2.id m) <;>
      simp [h, Nat.add_assoc, Nat.add_comm 1]

theorem stats_outer_foldl (cards0 : List GoalCard) (checked : CheckedState)
    (m : Month) (l : List GoalCard) (acc : Nat × Nat) :
    l.foldl
      (fun (acc : Nat × Nat) card =>
        (match categoryMonthGoals cards0 card.id with
          | some monthMap => (monthMap m).getD []
          | none => []).foldl
          (fun (acc : Nat × Nat) (cg : String × Goal) =>
            (acc.1 + 1, if checked (checkboxId cg.1 cg.2.id m) then acc.2 + 1 else acc.2))
          acc)
      acc =
    (acc.1 + ((l.map (fun card =>
        match categoryMonthGoals cards0 card.id with
        | some monthMap => (monthMap m).getD []
        | none => [])).flatten).length,
     acc.2 + (((l.map (fun card =>
        match categoryMonthGoals cards0 card.id with
        | some monthMap => (monthMap m).getD []
        | none => [])).flatten).filter
        (fun cg => checked (checkboxId cg.1 cg.2.id m))).length) := by
  induction l generalizing acc with
  | nil => simp
  | cons card rest ih =>
    simp only [List.foldl_cons, List.map_cons, List.flatten_cons]
    rw [stats_inner_foldl, ih]
    simp [List.filter_append, Nat.add_assoc]

/-- The counts underlying `calculateMonthStatistics`, expressed over
the flattened per-card eligible lists. -/
theorem calculateMonthStatistics_eq (cards : List GoalCard)
    (checked : CheckedState) (m : Month) :
    calculateMonthStatistics cards checked m =
      (if (eligibleList cards m).length = 0 then ⟨0, 0, 0, false⟩
       else
        ⟨jsRound ((((eligibleList cards m).filter
              (fun cg => checked (checkboxId cg.1 cg.2.id m))).length : Rat) /
            ((eligibleList cards m).length : Rat) * 100),
         100 - jsRound ((((eligibleList cards m).filter
              (fun cg => checked (checkboxId cg.1 cg.2.id m))).length : Rat) /
            ((eligibleList cards m).length : Rat) * 100),
         (((eligibleList cards m).filter
              (fun cg => checked (checkboxId cg.1 cg.2.id m))).length : Rat) /
            ((eligibleList cards m).length : Rat),
         ((eligibleList cards m).filter
              (fun cg => checked (checkboxId cg.1 cg.2.id m))).length ==
            (eligibleList cards m).length⟩) := by
  simp only [calculateMonthStatistics, eligibleList]
  rw [stats_outer_foldl cards checked m cards (0, 0)]
  simp

/-- With the empty checkbox state every lookup is false, so no month is
complete: either there are no eligible goals (`isComplete = false` by
the zero short-circuit) or none of them is checked. -/
theorem isComplete_const_false (cards : List GoalCard) (m : Month) :
    (calculateMonthStatistics cards (fun _ => false) m).isComplete = false := by
  rw [calculateMonthStatistics_eq]
  by_cases h : (eligibleList cards m).length = 0
  · simp [h]
  · have hf : ((eligibleList cards m).filter
        (fun cg => (fun _ => false) (checkboxId cg.1 cg.2.id m))).length = 0 := by
      simp
    simp only [if_neg h, hf]
    cases hL : (eligibleList cards m).length with
    | zero => exact absurd hL h
    | succ k => rfl

/-! ## Transition detector lemmas -/

theorem detector_foldl_fst (cards : List GoalCard) (checked : CheckedState)
    (prev : Month → Option Bool) (l : List Month)
    (acc : List Month × (Month → Option Bool)) :
    (l.foldl
      (fun (acc : List Month × (Month → Option Bool)) m =>
        let stats := calculateMonthStatistics cards checked m
        let wasComplete := (prev m).getD false
        let isNowComplete := stats.isComplete
        let fired := if !wasComplete && isNowComplete then acc.1 ++ [m] else acc.1
        (fired, fun m' => if m' = m then some isNowComplete else acc.2 m'))
      acc).1 =
    acc.1 ++ l.filter (fun m =>
      !((prev m).getD false) && (calculateMonthStatistics cards checked m).isComplete) := by
  induction l generalizing acc with
  | nil => simp
  | cons m0 rest ih =>
    simp only [List.foldl_cons, List.filter_cons]
    rw [ih]
    by_cases h : (!((prev m0).getD false) &&
        (calculateMonthStatistics cards checked m0).isComplete) = true <;>
      simp [h]

theorem detector_foldl_snd (cards : List GoalCard) (checked : CheckedState)
    (prev : Month → Option Bool) (l : List Month)
    (acc : List Month × (Month → Option Bool)) (m : Month) :
    (l.foldl
      (fun (acc : List Month × (Month → Option Bool)) m =>
        let stats := calculateMonthStatistics cards checked m
        let wasComplete := (prev m).getD false
        let isNowComplete := stats.isComplete
        let fired := if !wasComplete && isNowComplete then acc.1 ++ [m] else acc.1
        (fired, fun m' => if m' = m then some isNowComplete else acc.2 m'))
      acc).2 m =
    (if m ∈ l then some (calculateMonthStatistics cards checked m).isComplete
     else acc.2 m) := by
  induction l generalizing acc with
  | nil => simp
  | cons m0 rest ih =>
    simp only [List.foldl_cons]
    rw [ih]
    by_cases hmem : m ∈ rest
    · simp [hmem, List.mem_cons]
    · by_cases heq : m = m0
      · subst heq
        simp [hmem, List.mem_cons]
      · simp [hmem, heq, List.mem_cons]

/-- C1: the completion transition detector fires for a month exactly
when the freshly computed `isComplete` is true and the retained previous
value (absent read as false) is false; `true → true` and `true → false`
observations fire nothing.  Concretely, driving one month's `isComplete`
through `[false, false, true, true, false, true]` (via a one-goal demo
collection and constant checkbox states) fires exactly at indices 2 and
5 and never at index 3. -/
theorem detector_fires_on_false_true_edge :
    (∀ (cards : List GoalCard) (checked : CheckedState)
        (prev : Month → Option Bool) (m : Month),
      m ∈ (detectorPass cards checked prev).1 ↔
        ((calculateMonthStatistics cards checked m).isComplete = true ∧
         (prev m).getD false = false)) ∧
    runDetector demoCards
      [fun _ => false, fun _ => false, fun _ => true,
       fun _ => true, fun _ => false, fun _ => true] =
      [[], [], [Month.january], [], [], [Month.january]] := by
  constructor
  · intro cards checked prev m
    simp only [detectorPass]
    rw [detector_foldl_fst]
    simp only [List.nil_append, List.mem_filter, mem_MONTHS, true_and,
      Bool.and_eq_true, Bool.not_eq_true']
    constructor
    · rintro ⟨hwas, hnow⟩
      exact ⟨hnow, hwas⟩
    · rintro ⟨hnow, hwas⟩
      exact ⟨hwas, hnow⟩
  · decide

/-- C2: initializing the detector — the first effect pass, with the
retained ref still the empty record and the checkbox state at its
initial `{}` — fires no completion event for any collection (no month
can be complete with no box checked), and seeds the retained baseline
with the isComplete value computed for every month. -/
theorem detector_init_no_event (cards : List GoalCard) :
    (detectorPass cards (fun _ => false) (fun _ => none)).1 = [] ∧
    (∀ m : Month,
      (detectorPass cards (fun _ => false) (fun _ => none)).2 m =
        some ((calculateMonthStatistics cards (fun _ => false) m).isComplete)) := by
  constructor
  · simp only [detectorPass]
    rw [detector_foldl_fst]
    simp only [List.nil_append, List.filter_eq_nil_iff]
    intro m _
    simp [isComplete_const_false]
  · intro m
    simp only [detectorPass]
    rw [detector_foldl_snd]
    simp [mem_MONTHS]

/-! ## Claim C3: month statistics vs. the spec's description -/

theorem buildMonthMap_foldl (card : GoalCard) (m : Month) (gs : List Goal)
    (mm : Month → Option (List (String × Goal))) :
    ((gs.foldl
      (fun mm g =>
        if g.completed then
          match g.month with
          | some m =>
            let existing := (mm m).getD []
            fun m' => if m' = m then some (existing ++ [(card.id, g)]) else mm m'
          | none => mm
        else mm)
      mm) m).getD [] =
    (mm m).getD [] ++
      (gs.filter (fun g => g.completed && g.month == some m)).map
        (fun g => (card.id, g)) := by
  induction gs generalizing mm with
  | nil => simp
  | cons g rest ih =>
    simp only [List.foldl_cons, List.filter_cons]
    by_cases hc : g.completed
    · cases hm : g.month with
      | none => simp [hc, hm, ih]
      | some m' =>
        simp only [hc, hm, if_true]
        rw [ih]
        by_cases heq : m = m'
        · subst heq
          simp [hc, hm]
        · have : (some m' == some m) = false := by
            simp [beq_iff_eq]
            exact fun h => heq h.symm
          simp [hc, hm, heq, this]
    · simp only [Bool.not_eq_true] at hc
      simp [hc, ih]

theorem buildMonthMap_getD (card : GoalCard) (m : Month) :
    ((buildMonthMap card) m).getD [] =
      (card.goals.filter (fun g => g.completed && g.month == some m)).map
        (fun g => (card.id, g)) := by
  simpa using buildMonthMap_foldl card m card.goals (fun _ => none)

theorem cmg_foldl_skip (l : List GoalCard)
    (acc : String → Option (Month → Option (List (String × Goal))))
    (cid : String) (h : ∀ c ∈ l, c.id ≠ cid) :
    (l.foldl
      (fun acc card =>
        let monthMap := buildMonthMap card
        fun cid' => if cid' = card.id then some monthMap else acc cid')
      acc) cid = acc cid := by
  induction l generalizing acc with
  | nil => rfl
  | cons a t ih =>
    simp only [List.foldl_cons]
    rw [ih _ (fun c hc => h c (List.mem_cons_of_mem a hc))]
    have : cid ≠ a.id := fun hcid => h a (List.mem_cons_self a t) hcid.symm
    simp [this]

theorem cmg_foldl_mem (l : List GoalCard)
    (hpair : l.Pairwise (fun a b => a.id ≠ b.id)) :
    ∀ acc, ∀ c ∈ l,
      (l.foldl
        (fun acc card =>
          let monthMap := buildMonthMap card
          fun cid' => if cid' = card.id then some monthMap else acc cid')
        acc) c.id = some (buildMonthMap c) := by
  induction l with
  | nil => intro acc c hc; simp at hc
  | cons a t ih =>
    intro acc c hc
    have hpt := (List.pairwise_cons.mp hpair).2
    have hha := (List.pairwise_cons.mp hpair).1
    simp only [List.foldl_cons]
    rcases List.mem_cons.mp hc with rfl | hct
    · rw [cmg_foldl_skip t _ c.id (fun b hb => (hha b hb).symm)]
      simp
    · exact ih hpt _ c hct

theorem categoryMonthGoals_of_nodup (cards : List GoalCard)
    (h : cards.Pairwise (fun a b => a.id ≠ b.id)) :
    ∀ c ∈ cards, categoryMonthGoals cards c.id = some (buildMonthMap c) := by
  intro c hc
  exact cmg_foldl_mem cards h _ c hc

theorem eligibleList_of_nodup (cards : List GoalCard) (m : Month)
    (h : cards.Pairwise (fun a b => a.id ≠ b.id)) :
    eligibleList cards m =
      (cards.map (fun c =>
        (c.goals.filter (fun g => g.completed && g.month == some m)).map
          (fun g => (c.id, g)))).flatten := by
  unfold eligibleList
  congr 1
  refine List.map_congr_left (fun c hc => ?_)
  rw [categoryMonthGoals_of_nodup cards h c hc]
  exact buildMonthMap_getD c m

/-- C3 counterexample: the claim quantifies over every card collection,
but with two categories sharing one id the `categoryMonthGoals` map
keeps only the later (empty) month map, so the statistics loop counts
no goals at all — while the claim's description counts the completed
January goal of the first category (giving `incompletePct = 100`, not
0).  The claim, read over all collections, is false. -/
theorem calculateMonthStatistics_dup_id_counterexample :
    calculateMonthStatistics dupIdCards (fun _ => false) Month.january ≠
      computeMonthStatsSpec dupIdCards (fun _ => false) Month.january := by
  intro h
  have hjs : jsRound 0 = 0 := by
    unfold jsRound
    rw [zero_add, Int.floor_eq_zero_iff]
    constructor <;> norm_num
  have hinc := congrArg MonthStats.incomplete h
  have hcode :
      (calculateMonthStatistics dupIdCards (fun _ => false) Month.january).incomplete = 0 := by
    decide
  rw [hcode] at hinc
  have helig : ((dupIdCards.map (fun c =>
      (c.goals.filter (fun g => g.completed && g.month == some Month.january)).map
        (fun g => (c.id, g)))).flatten) =
      [("x", { id := "g1", text := "goal", completed := true,
               month := some Month.january })] := by decide
  simp only [computeMonthStatsSpec] at hinc
  rw [helig] at hinc
  simp only [List.filter_cons, List.filter_nil, List.length_cons,
    List.length_nil] at hinc
  norm_num at hinc
  rw [hjs] at hinc
  norm_num at hinc

/-- C3 amended: for every collection whose category ids are pairwise
distinct (which the data model guarantees: categories are a fixed set of
seven known ids), every checkbox state and every month,
`calculateMonthStatistics` returns exactly the spec's description
`computeMonthStatsSpec`: `total` counts the goals with
`completed = true` and the given month, `checked` counts those whose
`(categoryId, goalId, month)` checkbox is true, `total = 0` yields all
zeroes and `isComplete = false`, and otherwise the percentages, ratio
and completion flag are derived from the two counts. -/
theorem calculateMonthStatistics_spec_eq (cards : List GoalCard)
    (checked : CheckedState) (m : Month)
    (hids : cards.Pairwise (fun a b => a.id ≠ b.id)) :
    calculateMonthStatistics cards checked m = computeMonthStatsSpec cards checked m := by
  rw [calculateMonthStatistics_eq, eligibleList_of_nodup cards m hids]
  simp only [computeMonthStatsSpec]
  by_cases h : ((cards.map (fun c =>
      (c.goals.filter (fun g => g.completed && g.month == some m)).map
        (fun g => (c.id, g)))).flatten).length = 0
  · simp [h]
  · have harg :
        ∀ a b : Rat, a / b * 100 = 100 * a / b := by
      intro a b; ring
    simp [h, harg]

/-- Witness for the amended C3 at a concrete input: the demo collection
has distinct category ids; with every checkbox true, January's
statistics agree with the spec's description. -/
theorem calculateMonthStatistics_spec_eq_witness :
    calculateMonthStatistics demoCards (fun _ => true) Month.january =
      computeMonthStatsSpec demoCards (fun _ => true) Month.january :=
  calculateMonthStatistics_spec_eq demoCards (fun _ => true) Month.january
    (by decide)

/-! ## Claim C4: unchecking clears the month -/

theorem find?_map_pres {α : Type} (l : List α) (f : α → α) (p : α → Bool)
    (h : ∀ a, p (f a) = p a) :
    (l.map f).find? p = (l.find? p).map f := by
  induction l with
  | nil => rfl
  | cons a t ih =>
    simp only [List.map_cons]
    cases hp : p a
    · rw [List.find?_cons_of_neg, List.find?_cons_of_neg]
      · exact ih
      · simp [hp]
      · simp [h, hp]
    · rw [List.find?_cons_of_pos, List.find?_cons_of_pos]
      · rfl
      · simp [hp]
      · simp [h, hp]

/-- The effect of the `setCards(map ... map ...)` update shape shared by
`toggleGoal` and `saveEdit` on the goal found by `findGoal`: when the
per-goal update preserves ids, the found goal is the updated one. -/
theorem findGoal_map_update (cards : List GoalCard) (cardId goalId : String)
    (g : Goal) (h : Goal → Goal) (hid : ∀ x, (h x).id = x.id)
    (hfound : findGoal cards cardId goalId = some g) :
    findGoal (cards.map (fun card =>
      if card.id == cardId then
        { card with goals := card.goals.map (fun x =>
            if x.id == goalId then h x else x) }
      else card)) cardId goalId = some (h g) := by
  unfold findGoal at hfound ⊢
  obtain ⟨c0, hc0, hg0⟩ := Option.bind_eq_some.mp hfound
  have hc0id : (c0.id == cardId) = true := by simpa using List.find?_some hc0
  have hgid : (g.id == goalId) = true := by simpa using List.find?_some hg0
  rw [find?_map_pres _ _ _ (fun a => by
    by_cases ha : (a.id == cardId) = true <;> simp [ha])]
  rw [hc0]
  show ((if (c0.id == cardId) = true then
      { c0 with goals := c0.goals.map (fun x =>
          if x.id == goalId then h x else x) }
    else c0).goals.find? (fun x => x.id == goalId)) = some (h g)
  rw [if_pos hc0id]
  show ((c0.goals.map (fun x => if x.id == goalId then h x else x)).find?
    (fun x => x.id == goalId)) = some (h g)
  rw [find?_map_pres _ _ _ (fun x => by
    by_cases hx : (x.id == goalId) = true <;> simp [hx, hid])]
  rw [hg0]
  show some (if (g.id == goalId) = true then h g else g) = some (h g)
  rw [if_pos hgid]

/-- C4: toggling a goal whose `completed` flag is true sets the flag to
false and clears its month unconditionally; consequently toggling a
currently-unchecked goal twice leaves it unchecked with no month. -/
theorem toggleGoal_clears_month :
    ∀ (cards : List GoalCard) (cardId goalId : String) (g : Goal),
      findGoal cards cardId goalId = some g →
      (g.completed = true →
        findGoal (toggleGoal cards cardId goalId) cardId goalId =
          some { g with completed := false, month := none }) ∧
      (g.completed = false →
        findGoal (toggleGoal (toggleGoal cards cardId goalId) cardId goalId)
          cardId goalId = some { g with completed := false, month := none }) := by
  intro cards cardId goalId g hfound
  constructor
  · intro hc
    have hto : toggleGoal cards cardId goalId = cards.map (fun card =>
        if card.id == cardId then
          { card with goals := card.goals.map (fun x =>
              if x.id == goalId then { x with completed := false, month := none }
              else x) }
        else card) := by
      unfold toggleGoal
      rw [hfound]
      simp [hc]
    rw [hto]
    exact findGoal_map_update cards cardId goalId g _ (fun x => rfl) hfound
  · intro hc
    have h1 : toggleGoal cards cardId goalId = cards.map (fun card =>
        if card.id == cardId then
          { card with goals := card.goals.map (fun x =>
              if x.id == goalId then { x with completed := !x.completed } else x) }
        else card) := by
      unfold toggleGoal
      rw [hfound]
      simp [hc]
    have hf1 : findGoal (toggleGoal cards cardId goalId) cardId goalId =
        some { g with completed := true } := by
      rw [h1]
      rw [findGoal_map_update cards cardId goalId g
        (fun x => { x with completed := !x.completed }) (fun x => rfl) hfound]
      simp [hc]
    have h2 : ∀ tg : List GoalCard,
        findGoal tg cardId goalId = some { g with completed := true } →
        toggleGoal tg cardId goalId = tg.map (fun card =>
          if card.id == cardId then
            { card with goals := card.goals.map (fun x =>
                if x.id == goalId then { x with completed := false, month := none }
                else x) }
          else card) := by
      intro tg hfg
      unfold toggleGoal
      rw [hfg]
      rfl
    rw [h2 _ hf1]
    rw [findGoal_map_update (toggleGoal cards cardId goalId) cardId goalId
      { g with completed := true }
      (fun x => { x with completed := false, month := none }) (fun x => rfl) hf1]

/-- Witness for C4 at concrete inputs: unchecking the seeded completed
goal `health/h3` clears its (absent) month, and toggling the unchecked
goal `career/c1` twice leaves it unchecked with no month. -/
theorem toggleGoal_clears_month_witness :
    findGoal (toggleGoal initialCards "health" "h3") "health" "h3" =
      some { id := "h3",
             text := "Drink water 2 L: 2 vasos antes de hacer ejercicio, 2 vasos antes del desayuno, 2-vasos antes del almuerzo y 2 vasos 2 horas antes de dormir",
             completed := false, month := none } ∧
    findGoal (toggleGoal (toggleGoal initialCards "career" "c1") "career" "c1")
      "career" "c1" =
      some { id := "c1", text := "Python from 0 to hero",
             completed := false, month := none } :=
  ⟨(toggleGoal_clears_month initialCards "health" "h3"
      { id := "h3",
        text := "Drink water 2 L: 2 vasos antes de hacer ejercicio, 2 vasos antes del desayuno, 2-vasos antes del almuerzo y 2 vasos 2 horas antes de dormir",
        completed := true, month := none } (by decide)).1 rfl,
   (toggleGoal_clears_month initialCards "career" "c1"
      { id := "c1", text := "Python from 0 to hero",
        completed := false, month := none } (by decide)).2 rfl⟩

/-! ## Claim C9: frame property of the goal mutations -/

theorem CardFrame_refl (cards : List GoalCard) (cid : String) :
    CardFrame cards cards cid :=
  ⟨rfl, fun _ _ _ => ⟨rfl, rfl, rfl, rfl, rfl, fun _ => rfl⟩⟩

theorem GoalsFrame_refl (gs : List Goal) (gid : String) : GoalsFrame gs gs gid :=
  ⟨rfl, fun _ _ _ _ => rfl⟩

theorem get_map_eq {α β : Type} (l : List α) (f : α → β) (i : Nat)
    (hi : i < l.length) (hi' : i < (l.map f).length) :
    (l.map f).get ⟨i, hi'⟩ = f (l.get ⟨i, hi⟩) := by
  simp

theorem CardFrame_mapIf (cards : List GoalCard) (cid : String)
    (G : GoalCard → List Goal) :
    CardFrame cards (cards.map (fun card =>
      if card.id == cid then { card with goals := G card } else card)) cid := by
  refine ⟨by simp, fun i hi hi' => ?_⟩
  rw [get_map_eq cards _ i hi hi']
  by_cases h : ((cards.get ⟨i, hi⟩).id == cid) = true
  · rw [if_pos h]
    exact ⟨rfl, rfl, rfl, rfl, rfl, fun hne => absurd (by simpa using h) hne⟩
  · rw [if_neg h]
    exact ⟨rfl, rfl, rfl, rfl, rfl, fun _ => rfl⟩

theorem GoalsFrame_mapIf (gs : List Goal) (gid : String) (h : Goal → Goal) :
    GoalsFrame gs (gs.map (fun x => if x.id == gid then h x else x)) gid := by
  refine ⟨by simp, fun j hj hj' hne => ?_⟩
  rw [get_map_eq gs _ j hj hj']
  rw [if_neg (by simpa using hne)]

/-- The combined card/goal frame for the `map (if id then map goals)`
update shape shared by `toggleGoal` and `saveEdit`. -/
theorem frame_mapIf_goalmap (cards : List GoalCard) (cid gid : String)
    (h : Goal → Goal) :
    CardFrame cards (cards.map (fun card =>
      if card.id == cid then
        { card with goals := card.goals.map (fun x =>
            if x.id == gid then h x else x) }
      else card)) cid ∧
    ∀ (i : Nat) (hi : i < cards.length)
      (hi' : i < (cards.map (fun card =>
        if card.id == cid then
          { card with goals := card.goals.map (fun x =>
              if x.id == gid then h x else x) }
        else card)).length),
      GoalsFrame (cards.get ⟨i, hi⟩).goals
        ((cards.map (fun card =>
          if card.id == cid then
            { card with goals := card.goals.map (fun x =>
                if x.id == gid then h x else x) }
          else card)).get ⟨i, hi'⟩).goals gid := by
  refine ⟨CardFrame_mapIf cards cid _, fun i hi hi' => ?_⟩
  rw [get_map_eq cards _ i hi hi']
  by_cases hc : ((cards.get ⟨i, hi⟩).id == cid) = true
  · rw [if_pos hc]
    exact GoalsFrame_mapIf (cards.get ⟨i, hi⟩).goals gid h
  · rw [if_neg hc]
    exact GoalsFrame_refl (cards.get ⟨i, hi⟩).goals gid

/-- C9: every goal mutation is frame-preserving.  `toggleGoal`,
`saveEdit` and `deleteGoal` touch at most the addressed goal inside the
addressed category, `addGoal` only appends one new goal there; all other
categories, all other goals of the addressed category, and every
category's own id, title and display metadata are unchanged. -/
theorem goal_mutation_frame :
    ∀ (cards : List GoalCard) (cardId goalId editText : String) (now : Nat),
      (CardFrame cards (toggleGoal cards cardId goalId) cardId ∧
       ∀ (i : Nat) (hi : i < cards.length)
         (hi' : i < (toggleGoal cards cardId goalId).length),
         GoalsFrame (cards.get ⟨i, hi⟩).goals
           ((toggleGoal cards cardId goalId).get ⟨i, hi'⟩).goals goalId) ∧
      (CardFrame cards (saveEditCards cards (some (cardId, goalId)) editText) cardId ∧
       ∀ (i : Nat) (hi : i < cards.length)
         (hi' : i < (saveEditCards cards (some (cardId, goalId)) editText).length),
         GoalsFrame (cards.get ⟨i, hi⟩).goals
           ((saveEditCards cards (some (cardId, goalId)) editText).get ⟨i, hi'⟩).goals
           goalId) ∧
      (CardFrame cards (deleteGoal cards cardId goalId) cardId ∧
       ∀ (i : Nat) (hi : i < cards.length)
         (hi' : i < (deleteGoal cards cardId goalId).length),
         ∀ g ∈ (cards.get ⟨i, hi⟩).goals, g.id ≠ goalId →
           g ∈ ((deleteGoal cards cardId goalId).get ⟨i, hi'⟩).goals) ∧
      (CardFrame cards (addGoal cards cardId now) cardId ∧
       ∀ (i : Nat) (hi : i < cards.length)
         (hi' : i < (addGoal cards cardId now).length),
         (cards.get ⟨i, hi⟩).id = cardId →
           ((addGoal cards cardId now).get ⟨i, hi'⟩).goals =
             (cards.get ⟨i, hi⟩).goals ++
               [{ id := cardId ++ "-" ++ toString now, text := "New goal",
                  completed := false, month := none }]) := by
  intro cards cardId goalId editText now
  refine ⟨?_, ?_, ?_, ?_⟩
  · -- toggleGoal
    cases hf : findGoal cards cardId goalId with
    | none =>
      have heq : toggleGoal cards cardId goalId = cards := by
        unfold toggleGoal
        rw [hf]
      rw [heq]
      exact ⟨CardFrame_refl cards cardId,
        fun i hi hi' => GoalsFrame_refl (cards.get ⟨i, hi⟩).goals goalId⟩
    | some goal =>
      cases hgc : goal.completed
      · have heq : toggleGoal cards cardId goalId = cards.map (fun card =>
            if card.id == cardId then
              { card with goals := card.goals.map (fun x =>
                  if x.id == goalId then { x with completed := !x.completed }
                  else x) }
            else card) := by
          unfold toggleGoal
          rw [hf]
          simp [hgc]
        rw [heq]
        exact frame_mapIf_goalmap cards cardId goalId _
      · have heq : toggleGoal cards cardId goalId = cards.map (fun card =>
            if card.id == cardId then
              { card with goals := card.goals.map (fun x =>
                  if x.id == goalId then { x with completed := false, month := none }
                  else x) }
            else card) := by
          unfold toggleGoal
          rw [hf]
          simp [hgc]
        rw [heq]
        exact frame_mapIf_goalmap cards cardId goalId _
  · -- saveEdit
    by_cases ht : editText.trim ≠ ""
    · have heq : saveEditCards cards (some (cardId, goalId)) editText =
          cards.map (fun card =>
            if card.id == cardId then
              { card with goals := card.goals.map (fun x =>
                  if x.id == goalId then { x with text := editText.trim } else x) }
            else card) := by
        unfold saveEditCards
        simp [ht]
      rw [heq]
      exact frame_mapIf_goalmap cards cardId goalId _
    · have heq : saveEditCards cards (some (cardId, goalId)) editText = cards := by
        unfold saveEditCards
        simp [ht]
      rw [heq]
      exact ⟨CardFrame_refl cards cardId,
        fun i hi hi' => GoalsFrame_refl (cards.get ⟨i, hi⟩).goals goalId⟩
  · -- deleteGoal
    have heq : deleteGoal cards cardId goalId = cards.map (fun card =>
        if card.id == cardId then
          { card with goals := card.goals.filter (fun g => !(g.id == goalId)) }
        else card) := rfl
    rw [heq]
    refine ⟨CardFrame_mapIf cards cardId _, fun i hi hi' g hg hne => ?_⟩
    rw [get_map_eq cards _ i hi hi']
    by_cases hc : ((cards.get ⟨i, hi⟩).id == cardId) = true
    · rw [if_pos hc]
      refine List.mem_filter.mpr ⟨hg, ?_⟩
      simp [hne]
    · rw [if_neg hc]
      exact hg
  · -- addGoal
    have heq : addGoal cards cardId now = cards.map (fun card =>
        if card.id == cardId then
          { card with goals := card.goals ++
              [{ id := cardId ++ "-" ++ toString now, text := "New goal",
                 completed := false, month := none }] }
        else card) := rfl
    rw [heq]
    refine ⟨CardFrame_mapIf cards cardId _, fun i hi hi' hid => ?_⟩
    rw [get_map_eq cards _ i hi hi']
    have hc : ((cards.get ⟨i, hi⟩).id == cardId) = true := by simpa using hid
    rw [if_pos hc]

/-- Witness for C9 at a concrete input: toggling `career/c1` in the
seed collection leaves the second category untouched and preserves the
first category's title; deleting `career/c1` keeps `career/c2`;
adding a goal to `career` appends exactly one new goal. -/
theorem goal_mutation_frame_witness :
    (toggleGoal initialCards "career" "c1").length = initialCards.length ∧
    ((toggleGoal initialCards "career" "c1").get ⟨1, by decide⟩ =
      initialCards.get ⟨1, by decide⟩) ∧
    ((toggleGoal initialCards "career" "c1").get ⟨0, by decide⟩).title =
      (initialCards.get ⟨0, by decide⟩).title ∧
    ({ id := "c2", text := "Udemy Course AI", completed := false,
       month := none : Goal } ∈
      ((deleteGoal initialCards "career" "c1").get ⟨0, by decide⟩).goals) ∧
    ((addGoal initialCards "career" 7).get ⟨0, by decide⟩).goals =
      (initialCards.get ⟨0, by decide⟩).goals ++
        [{ id := "career-7", text := "New goal", completed := false,
           month := none }] := by
  obtain ⟨⟨⟨hlen, hcards⟩, _⟩, _, ⟨_, hdel⟩, ⟨_, hadd⟩⟩ :=
    goal_mutation_frame initialCards "career" "c1" "" 7
  refine ⟨hlen, ?_, ?_, ?_, ?_⟩
  · exact (hcards 1 (by decide) (by rw [hlen]; decide)).2.2.2.2.2 (by decide)
  · exact (hcards 0 (by decide) (by rw [hlen]; decide)).2.1
  · exact hdel 0 (by decide) (by decide)
      { id := "c2", text := "Udemy Course AI", completed := false, month := none }
      (by decide) (by decide)
  · exact hadd 0 (by decide) (by decide) (by decide)

/-! ## Claims C6 and C7: capture-flow guards and timeout -/

theorem attemptCapture_flowRunId (fid : Nat) (o : CaptureOutcome) (s : ModalState) :
    ((attemptCapture fid o s).1).flowRunId = s.flowRunId := by
  unfold attemptCapture
  split
  · rfl
  · split
    · rfl
    · cases o <;> rfl

/-- C6: every asynchronous continuation of the capture flow carries the
flow id it was issued under and checks it against the active flow
before acting.  A stale capture-timeout callback and a stale capture
attempt return with the state untouched; a stale retry tick leaves the
whole flow state (every field except the cleared retry-interval handle)
untouched, and leaves the state entirely untouched whenever the retry
interval is already clear — as it is after any teardown or supersession.
`handleCapture` allocates flow ids monotonically: the id it activates is
the incremented `flowRunIdRef`, strictly greater than every previously
issued id. -/
theorem capture_flow_guards :
    ∀ (s : ModalState) (fid : Nat) (o : CaptureOutcome),
      (s.activeFlowId ≠ some fid → captureTimeoutCont fid s = s) ∧
      (s.activeFlowId ≠ some fid → attemptCapture fid o s = (s, false)) ∧
      (s.activeFlowId ≠ some fid →
        flowProj (retryTick fid o s) = flowProj s ∧
        (retryTick fid o s).retryIntervalActive = false) ∧
      (s.activeFlowId ≠ some fid → s.retryIntervalActive = false →
        retryTick fid o s = s) ∧
      (s.isCapturing = false →
        (handleCaptureStart o s).2 = some (s.flowRunId + 1) ∧
        ((handleCaptureStart o s).1).flowRunId = s.flowRunId + 1 ∧
        s.flowRunId < s.flowRunId + 1) := by
  intro s fid o
  refine ⟨?_, ?_, ?_, ?_, ?_⟩
  · intro h
    unfold captureTimeoutCont
    rw [if_pos h]
  · intro h
    unfold attemptCapture
    rw [if_pos h]
  · intro h
    unfold retryTick
    rw [if_pos h]
    exact ⟨rfl, rfl⟩
  · intro h hr
    unfold retryTick
    rw [if_pos h]
    cases s
    simp only at hr
    simp [hr]
  · intro h
    have hni : ¬(s.isCapturing = true) := by simp [h]
    refine ⟨?_, ?_, Nat.lt_succ_self _⟩
    · simp only [handleCaptureStart]
      rw [if_neg hni]
      split
      · rfl
      · split <;> rfl
    · simp only [handleCaptureStart]
      rw [if_neg hni]
      split
      · simp [attemptCapture_flowRunId]
      · split
        · simp [attemptCapture_flowRunId]
        · simp [attemptCapture_flowRunId]

/-- Witness for C6 at concrete inputs: continuations of the superseded
flow 1 hit the guards while flow 2 is active, and a fresh
`handleCapture` from the quiescent state allocates flow id 1. -/
theorem capture_flow_guards_witness :
    captureTimeoutCont 1 staleFlowState = staleFlowState ∧
    attemptCapture 1 CaptureOutcome.transientNull staleFlowState =
      (staleFlowState, false) ∧
    flowProj (retryTick 1 CaptureOutcome.transientNull staleFlowState) =
      flowProj staleFlowState ∧
    readyModalState.retryIntervalActive = false ∧
    retryTick 1 CaptureOutcome.transientNull readyModalState = readyModalState ∧
    (handleCaptureStart CaptureOutcome.transientNull readyModalState).2 = some 1 :=
  ⟨(capture_flow_guards staleFlowState 1 CaptureOutcome.transientNull).1
      (by decide),
   (capture_flow_guards staleFlowState 1 CaptureOutcome.transientNull).2.1
      (by decide),
   ((capture_flow_guards staleFlowState 1 CaptureOutcome.transientNull).2.2.1
      (by decide)).1,
   rfl,
   (capture_flow_guards readyModalState 1 CaptureOutcome.transientNull).2.2.2.1
      (by decide) rfl,
   ((capture_flow_guards readyModalState 1 CaptureOutcome.transientNull).2.2.2.2
      rfl).1⟩

/-- C7: a capture flow whose every attempt returns transient `null`
terminates.  Starting `handleCapture` from an open, camera-mode state
arms the capture timeout and the retry interval; each retry tick leaves
the state fixed (no progress, but no divergence either — after any
number of ticks the state is unchanged), and when the timeout
continuation scheduled at `CAPTURE_TIMEOUT_MS = 10000` ms runs, the
retry interval is cleared, the flow is torn down (no active flow, no
timers, camera stopped, camera mode exited) and the timeout-kind error
message is reported. -/
theorem capture_allnull_times_out :
    ∀ s : ModalState,
      s.openFlag = true → s.isCameraMode = true → s.isCapturing = false →
      (handleCaptureStart CaptureOutcome.transientNull s).2 =
        some (s.flowRunId + 1) ∧
      ((handleCaptureStart CaptureOutcome.transientNull s).1).retryIntervalActive
        = true ∧
      ((handleCaptureStart CaptureOutcome.transientNull s).1).captureTimeoutActive
        = true ∧
      ((handleCaptureStart CaptureOutcome.transientNull s).1).activeFlowId =
        some (s.flowRunId + 1) ∧
      (∀ n : Nat,
        (retryTick (s.flowRunId + 1) CaptureOutcome.transientNull)^[n]
          ((handleCaptureStart CaptureOutcome.transientNull s).1) =
        (handleCaptureStart CaptureOutcome.transientNull s).1) ∧
      (∀ n : Nat,
        (captureTimeoutCont (s.flowRunId + 1)
          ((retryTick (s.flowRunId + 1) CaptureOutcome.transientNull)^[n]
            ((handleCaptureStart CaptureOutcome.transientNull s).1))).cameraError
            = some captureTimeoutMsg ∧
        (captureTimeoutCont (s.flowRunId + 1)
          ((retryTick (s.flowRunId + 1) CaptureOutcome.transientNull)^[n]
            ((handleCaptureStart CaptureOutcome.transientNull s).1))).activeFlowId
            = none ∧
        (captureTimeoutCont (s.flowRunId + 1)
          ((retryTick (s.flowRunId + 1) CaptureOutcome.transientNull)^[n]
            ((handleCaptureStart CaptureOutcome.transientNull s).1))).retryIntervalActive
            = false ∧
        (captureTimeoutCont (s.flowRunId + 1)
          ((retryTick (s.flowRunId + 1) CaptureOutcome.transientNull)^[n]
            ((handleCaptureStart CaptureOutcome.transientNull s).1))).captureTimeoutActive
            = false ∧
        (captureTimeoutCont (s.flowRunId + 1)
          ((retryTick (s.flowRunId + 1) CaptureOutcome.transientNull)^[n]
            ((handleCaptureStart CaptureOutcome.transientNull s).1))).isCameraMode
            = false ∧
        (captureTimeoutCont (s.flowRunId + 1)
          ((retryTick (s.flowRunId + 1) CaptureOutcome.transientNull)^[n]
            ((handleCaptureStart CaptureOutcome.transientNull s).1))).cameraActive
            = false) ∧
      CAPTURE_TIMEOUT_MS = 10000 ∧ RETRY_INTERVAL_MS = 500 := by
  intro s hOpen hCam hCap
  have h1 : handleCaptureStart CaptureOutcome.transientNull s =
      (armedState s, some (s.flowRunId + 1)) := by
    unfold handleCaptureStart attemptCapture armedState
    simp [hCap, hCam, hOpen]
  have hfix : retryTick (s.flowRunId + 1) CaptureOutcome.transientNull
      (armedState s) = armedState s := by
    unfold retryTick attemptCapture armedState
    simp [hCam, hOpen]
  have hiter : ∀ n : Nat,
      (retryTick (s.flowRunId + 1) CaptureOutcome.transientNull)^[n]
        (armedState s) = armedState s :=
    fun n => Function.iterate_fixed hfix n
  have htime : captureTimeoutCont (s.flowRunId + 1) (armedState s) =
      timedOutState s := by
    unfold captureTimeoutCont teardownCaptureFlow armedState timedOutState
    simp [hCam, hOpen]
  rw [h1]
  refine ⟨rfl, ?_, ?_, ?_, hiter, fun n => ?_, rfl, rfl⟩
  · rw [armedState]
  · rw [armedState]
  · rw [armedState]
  · rw [hiter n, htime]
    exact ⟨rfl, rfl, rfl, rfl, rfl, rfl⟩

/-- Witness for C7 at a concrete input: from the quiescent open state,
after 20 stale-free transient ticks the timeout continuation reports
the timeout error and deactivates the flow. -/
theorem capture_allnull_times_out_witness :
    (captureTimeoutCont 1
      ((retryTick 1 CaptureOutcome.transientNull)^[20]
        ((handleCaptureStart CaptureOutcome.transientNull readyModalState).1))).cameraError
      = some captureTimeoutMsg ∧
    (captureTimeoutCont 1
      ((retryTick 1 CaptureOutcome.transientNull)^[20]
        ((handleCaptureStart CaptureOutcome.transientNull readyModalState).1))).activeFlowId
      = none :=
  ⟨((capture_allnull_times_out readyModalState rfl rfl rfl).2.2.2.2.2.1 20).1,
   ((capture_allnull_times_out readyModalState rfl rfl rfl).2.2.2.2.2.1 20).2.1⟩

end Goals2026
